import Mathlib

/-!
Shallow embedding of the socraticbse backend (src/backend/backend.py,
persistence.py, llm_client.py, llm_parsing.py) and proofs about the
frozen claims.  Machine state is the logical session view presented by
the persistence layer (the durable relational store is authoritative);
timestamps are rationals; Python dicts holding concept/question payloads
are typed records; JSON decoding (Python json.loads) is passed in as an
oracle of type String -> Option Json.
-/

namespace SocraticBSE

/-- Python str.lower() (character-wise, which agrees on the ASCII data
this backend compares). -/
def pyLower (s : String) : String :=
  String.mk (s.data.map Char.toLower)

/-- The characters Python str.strip() removes by default. -/
def pySpace (c : Char) : Bool :=
  c.isWhitespace || c = Char.ofNat 11 || c = Char.ofNat 12

/-- Python str.strip(): drop leading and trailing whitespace. -/
def pyStrip (s : String) : String :=
  String.mk (((s.data.dropWhile pySpace).reverse.dropWhile pySpace).reverse)

/-- Speaker tag of a dialogue turn ("AI" or "User" in the source). -/
inductive Speaker where
  | AI
  | User
deriving DecidableEq, Repr

/-- One dialogue turn: db.Turn(speaker, text, timestamp). -/
structure Turn where
  speaker : Speaker
  text : String
  timestamp : ℚ
deriving DecidableEq, Repr

/-- One question of a concept: the dicts in seed_concept_graph.json with
keys "question", "type", "hints". -/
structure Question where
  qtext : String
  qtype : String
  hints : List String
deriving DecidableEq, Repr

/-- A concept record: keys "class", "subject", "title", "keywords",
"prerequisites", "questions", plus the "is_llm_generated" marker that
generate_llm_concept may add. -/
structure Concept where
  grade : ℤ
  subject : String
  title : String
  keywords : List String
  prerequisites : List String
  questions : List Question
  is_llm_generated : Bool
deriving DecidableEq, Repr

/-- The logical session view kept by PersistenceLayer: the Session row
(concept_data, next_q_idx, hint_level), its Turn rows (dialogue) and its
Progress row (questions_answered, total_questions, concepts_covered).
times_per_question is recomputed from the turns on every read and is not
stored here. -/
structure SessionState where
  user_id : String
  concept : Concept
  dialogue : List Turn
  next_q_idx : ℕ
  hint_level : ℕ
  questions_answered : ℕ
  total_questions : ℕ
  concepts_covered : List String
deriving DecidableEq, Repr

/-- PersistenceLayer.add_turn: append the turn; for a User turn whose
text is non-blank after stripping, increment questions_answered.  (The
time_spent parameter is omitted: every call site in backend.py passes
None, so the times_per_question append branch is dead.) -/
def add_turn (s : SessionState) (speaker : Speaker) (text : String) (t : ℚ) : SessionState :=
  let s1 := { s with dialogue := s.dialogue ++ [⟨speaker, text, t⟩] }
  if speaker = Speaker.User ∧ pyStrip text ≠ "" then
    { s1 with questions_answered := s1.questions_answered + 1 }
  else s1

/-- PersistenceLayer.update_hint_level. -/
def update_hint_level (s : SessionState) (n : ℕ) : SessionState :=
  { s with hint_level := n }

/-- PersistenceLayer.update_next_q_idx. -/
def update_next_q_idx (s : SessionState) (n : ℕ) : SessionState :=
  { s with next_q_idx := n }

/-- PersistenceLayer.create_session: the fresh session record.  Note
next_q_idx starts at 0 (the db.Session column default; create_session
never sets it) and hint_level at 0. -/
def create_session (user_id : String) (concept : Concept) : SessionState :=
  { user_id := user_id
    concept := concept
    dialogue := []
    next_q_idx := 0
    hint_level := 0
    questions_answered := 0
    total_questions := concept.questions.length
    concepts_covered := [concept.title] }

/-- find_concept: first concept matching exact grade and case-insensitive
subject/title. -/
def find_concept (graph : List Concept) (class_grade : ℤ) (subject title : String) :
    Option Concept :=
  graph.find? fun c =>
    c.grade == class_grade && pyLower c.subject == pyLower subject
      && pyLower c.title == pyLower title

/-- Python list indexing semantics, negative indices included: l[i]
returns the element or raises IndexError (modelled as none). -/
def pyIndex {α : Type} (l : List α) (i : ℤ) : Option α :=
  if 0 ≤ i then l[i.toNat]?
  else if (-i) ≤ (l.length : ℤ) then l[l.length - (-i).toNat]? else none

/-- Python "needle in haystack" on lists of characters: contiguous
subsequence test. -/
def hasSubSeq : List Char → List Char → Bool
  | _, [] => true
  | [], _ :: _ => false
  | h :: t, n :: m => (List.isPrefixOf (n :: m) (h :: t)) || hasSubSeq t (n :: m)

/-- Python "sub in s" for strings. -/
def containsSub (s sub : String) : Bool :=
  hasSubSeq s.data sub.data

/-- Minimal JSON value model for what json.loads can return. -/
inductive Json where
  | null
  | bool (b : Bool)
  | num (q : ℚ)
  | str (s : String)
  | arr (elems : List Json)
  | obj (fields : List (String × Json))

/-- Dict lookup: d[k] / "k" in d on a JSON object (none on non-objects,
where Python membership is false or a TypeError; both routes end in the
same observable error handling at every call site). -/
def Json.getField : Json → String → Option Json
  | .obj fs, k => (fs.find? fun p => p.1 == k).map Prod.snd
  | _, _ => none

/-- Dict update d[k] = v (identity on non-objects, where Python raises;
the branch is only used after a successful key check). -/
def Json.setField : Json → String → Json → Json
  | .obj fs, k, v => .obj (fs ++ [(k, v)])
  | j, _, _ => j

/-- The two exception classes the backend distinguishes:
llm_client.LLMError and llm_parsing.LLMParsingError. -/
inductive PyExc where
  | llmError (msg : String)
  | llmParsingError (msg : String)
deriving DecidableEq, Repr

/-- str.find(c): index of first occurrence or -1. -/
def pyFind (cs : List Char) (c : Char) : ℤ :=
  match cs.findIdx? (· = c) with
  | some i => (i : ℤ)
  | none => -1

/-- str.rfind(c): index of last occurrence or -1. -/
def pyRFind (cs : List Char) (c : Char) : ℤ :=
  match cs.reverse.findIdx? (· = c) with
  | some i => (cs.length : ℤ) - 1 - i
  | none => -1

/-- llm_parsing.parse_llm_response on a string argument (every backend
call site passes the string send_prompt returned): reject blank text,
try json.loads, else extract the first-brace/last-brace slice and try
again.  Every failure raises LLMParsingError (the whole body is wrapped
in an except-Exception re-raise). -/
def parse_llm_response (jp : String → Option Json) (text : String) : Except PyExc Json :=
  if pyStrip text = "" then .error (.llmParsingError "Empty response from LLM")
  else
    match jp text with
    | some j => .ok j
    | none =>
      let cs := text.data
      let start := pyFind cs (Char.ofNat 123)
      let stop := pyRFind cs (Char.ofNat 125) + 1
      if 0 ≤ start ∧ start < stop then
        match jp (String.mk ((cs.drop start.toNat).take (stop - start).toNat)) with
        | some j => .ok j
        | none => .error (.llmParsingError "Failed to parse response as JSON")
      else .error (.llmParsingError "Failed to parse response as JSON")

/-- llm_parsing.parse_llm_evaluation: require is_correct and feedback. -/
def parse_llm_evaluation (jp : String → Option Json) (r : String) : Except PyExc Json :=
  match parse_llm_response jp r with
  | .error e => .error e
  | .ok result =>
    if (result.getField "is_correct").isNone then
      .error (.llmParsingError "Missing is_correct field in evaluation")
    else if (result.getField "feedback").isNone then
      .error (.llmParsingError "Missing feedback field in evaluation")
    else .ok result

/-- llm_parsing.parse_llm_question: require question, default type. -/
def parse_llm_question (jp : String → Option Json) (r : String) : Except PyExc Json :=
  match parse_llm_response jp r with
  | .error e => .error e
  | .ok result =>
    if (result.getField "question").isNone then
      .error (.llmParsingError "Missing question field in response")
    else if (result.getField "type").isNone then
      .ok (result.setField "type" (.str "elicitation"))
    else .ok result

/-- llm_parsing.parse_llm_hint: require hint. -/
def parse_llm_hint (jp : String → Option Json) (r : String) : Except PyExc Json :=
  match parse_llm_response jp r with
  | .error e => .error e
  | .ok result =>
    if (result.getField "hint").isNone then
      .error (.llmParsingError "Missing hint field in response")
    else .ok result

/-- The llm_client environment configuration: GROQ_API_KEY, GROQ_API_URL,
GROQ_MODEL ("" models an unset key/url). -/
structure LLMConfig where
  apiKey : String
  baseUrl : String
  model : String
deriving DecidableEq, Repr

/-- Outcome of the single requests.post call inside send_prompt: either a
transport-level failure (RequestException / Timeout / ConnectionError) or
an HTTP response with a status code and a body. -/
inductive NetResult where
  | transportFailure
  | httpResponse (status : ℕ) (body : String)
deriving DecidableEq, Repr

/-- llm_client._parse_response: decode the response body, extract
choices[0].message.content (or choices[0].text).  Every failure is an
LLMError (the KeyError / JSONDecodeError wraps, plus the invalid-format
raises; shape errors Python would surface as TypeError/AttributeError
are folded into LLMError here — at the sole call site both are caught by
the same except-Exception and produce the identical empty-string result). -/
def parseApiResponse (jp : String → Option Json) (body : String) : Except PyExc String :=
  match jp body with
  | none => .error (.llmError "Failed to parse API response")
  | some data =>
    match data.getField "choices" with
    | some (.arr (c0 :: _)) =>
      let msg := c0.getField "message"
      let hasContent := match msg with
        | some m => (m.getField "content").isSome
        | none => false
      if hasContent then
        match msg with
        | some m =>
          match m.getField "content" with
          | some (.str s) => .ok (pyStrip s)
          | _ => .error (.llmError "non-string content")
        | none => .error (.llmError "No content found in response")
      else
        match c0.getField "text" with
        | some (.str s) => .ok (pyStrip s)
        | some _ => .error (.llmError "non-string text")
        | none => .error (.llmError "No content found in response")
    | some _ => .error (.llmError "Invalid response format from API")
    | none => .error (.llmError "Invalid response format from API")

/-- llm_client.send_prompt.  The network is an oracle mapping the prompt
to the outcome of the post call.  Returns the text plus a flag recording
whether a network call was attempted.  Faithful to the source, every
internal exception is caught and the function returns "": a missing
key/url (LLMError from _validate_config) returns early without a network
call; RequestException and every parsing failure return "". -/
def send_prompt (cfg : LLMConfig) (jp : String → Option Json) (net : String → NetResult)
    (prompt : String) (maxTokens : ℕ) : String × Bool :=
  if cfg.apiKey = "" then ("", false)
  else if cfg.baseUrl = "" then ("", false)
  else
    match net prompt with
    | .transportFailure => ("", true)
    | .httpResponse status body =>
      if 400 ≤ status then ("", true)
      else
        match parseApiResponse jp body with
        | .ok text => (text, true)
        | .error _ => ("", true)

/-- Backend configuration: the USE_LLM flag plus the llm_client env. -/
structure Cfg where
  useLLM : Bool
  llm : LLMConfig
deriving DecidableEq, Repr

/-- The errors the endpoints surface, mirroring the HTTPException uses:
404 session/concept not found, 400 no active question / nothing to
retry, the get_hint 500 carrying an LLMError detail, and the remaining
500s (empty concept, IndexError, unhandled LLMParsingError, response
validation). -/
inductive HErr where
  | notFound
  | noActiveQuestion
  | serviceUnavailable (detail : String)
  | internal (detail : String)
deriving DecidableEq, Repr

/-- Equality of endpoint results is decidable (used only to evaluate the
embedding at concrete inputs). -/
instance {ε α : Type} [DecidableEq ε] [DecidableEq α] : DecidableEq (Except ε α) := fun a b =>
  match a, b with
  | .ok x, .ok y =>
    if h : x = y then .isTrue (by rw [h]) else .isFalse (by intro hc; cases hc; exact h rfl)
  | .error x, .error y =>
    if h : x = y then .isTrue (by rw [h]) else .isFalse (by intro hc; cases hc; exact h rfl)
  | .ok _, .error _ => .isFalse (by intro hc; cases hc)
  | .error _, .ok _ => .isFalse (by intro hc; cases hc)

/-- The f-string prompt session_turn builds for answer evaluation.  Note
it interpolates the NEXT question, exactly as the source does. -/
def evalPrompt (questionText userAnswer : String) : String :=
  "You are a helpful CBSE tutor. Given:\nQuestion: \"" ++ questionText
    ++ "\"\nStudent Answer: \"" ++ userAnswer
    ++ "\"\n\nEvaluate if the answer is correct and provide feedback. Response as JSON:\n\x7b\n    \"is_correct\": true/false,\n    \"feedback\": \"<constructive feedback>\"\n\x7d"

/-- The f-string prompt get_hint builds. -/
def hintPrompt (questionText : String) (hintLevel : ℕ) (subject : String) (grade : ℤ) : String :=
  "You are a CBSE tutor. Given:\nQuestion: \"" ++ questionText
    ++ "\"\nHint Level: " ++ toString hintLevel
    ++ "\nSubject: " ++ subject
    ++ "\nClass: " ++ toString grade
    ++ "\n\nProvide a hint that:\n1. Gives guidance without revealing the answer\n2. Is appropriate for hint level "
    ++ toString hintLevel
    ++ " (more detailed at higher levels)\n3. Uses Socratic questioning\n\nResponse as JSON:\n\x7b\n    \"hint\": \"<your hint here>\"\n\x7d"

/-- The f-string prompt retry_question builds. -/
def retryPrompt (questionText title : String) (grade : ℤ) (subject : String) : String :=
  "You are a CBSE tutor. Given:\nOriginal Question: \"" ++ questionText
    ++ "\"\nConcept: " ++ title ++ " (Class " ++ toString grade ++ ", " ++ subject
    ++ ")\n\nCreate a rephrased version that:\n1. Maintains the same learning objective\n2. Approaches from a different angle\n3. Uses Socratic questioning\n4. Is appropriate for Class "
    ++ toString grade
    ++ "\n\nResponse as JSON:\n\x7b\n    \"question\": \"<your rephrased question>\",\n    \"type\": \"elicitation\"\n\x7d"

/-- The f-string prompt skip_question builds. -/
def skipPrompt (title : String) (grade : ℤ) (subject previousQ : String) : String :=
  "You are a CBSE tutor. Given:\nConcept: " ++ title ++ " (Class " ++ toString grade
    ++ ", " ++ subject ++ ")\nPrevious Question: \"" ++ previousQ
    ++ "\"\nStudent Action: Chose to skip the question\n\nGenerate a new Socratic question that:\n1. Acknowledges the skip naturally\n2. Moves to a different aspect of "
    ++ title ++ "\n3. Maintains appropriate difficulty for Class " ++ toString grade
    ++ "\n4. Uses a fresh approach to engage the student\n\nResponse as JSON:\n\x7b\n    \"question\": \"<your question with brief transition>\",\n    \"type\": \"elicitation\"\n\x7d"

/-- llm_client.LLM_PROMPT_TEMPLATE instantiated by generate_socratic_prompt. -/
def generate_socratic_prompt (conceptTitle : String) (classGrade : ℤ) (subject : String) : String :=
  "\nYou are an intelligent Socratic tutor for CBSE students.\n\nConcept: " ++ conceptTitle
    ++ "\nSubject: " ++ subject
    ++ "\nClass: " ++ toString classGrade
    ++ "\n\nRules:\n1. Always ask the student a Socratic-style question that encourages reasoning.\n2. Include one follow-up question if the student might need further guidance.\n3. Provide hints only if requested.\n4. Adapt your question style to the subject:\n   - Biology: focus on processes, cause-effect, and real-life examples.\n   - Physics: relate concepts to formulas, experiments, and real-world phenomena.\n   - Mathematics: ask stepwise problem-solving questions; focus on logical reasoning.\n   - Chemistry: emphasize reactions, structures, and mechanisms.\n\nGenerate output as JSON:\n\x7b\n  \"question\": \"<Your Socratic question here>\",\n  \"type\": \"elicitation\",\n  \"hint\": \"<Optional hint or leave blank>\",\n  \"follow_up\": \"<Optional follow-up question or leave blank>\"\n\x7d\n"

/-- generate_llm_concept: replace the question list with LLM-generated
questions, falling back to the seed concept when the LLM is disabled,
returns an empty response, or yields no usable lines. -/
def generate_llm_concept (cfg : Cfg) (jp : String → Option Json) (net : String → NetResult)
    (base : Concept) : Concept :=
  if ¬cfg.useLLM then base
  else
    let response := (send_prompt cfg.llm jp net
      (generate_socratic_prompt base.title base.grade base.subject) 512).1
    if response = "" then base
    else
      let questions := ((pyStrip response).splitOn "\n").filterMap fun q =>
        if pyStrip q = "" then none
        else some
          { qtext := pyStrip q
            qtype := "elicitation"
            hints := ["Think about the key concepts involved.",
                      "Consider cause and effect relationships.",
                      "Try to explain it step by step."] }
      if questions = [] then base
      else { base with questions := questions, is_llm_generated := true }

/-- Response of /session/start. -/
structure StartResponse where
  session_id : String
  question_type : String
  question : String
  hint_level : ℕ
deriving DecidableEq, Repr

/-- start_session.  Returns the response-or-error TOGETHER with the
resulting store, because the source commits create_session before the
empty-question check: a "Concept has no questions" failure leaves the
session and progress records written (and the first AI turn not yet
written). -/
def start_session (cfg : Cfg) (jp : String → Option Json) (net : String → NetResult)
    (graph : List Concept) (store : String → Option SessionState)
    (session_id user_id : String) (class_grade : ℤ) (subject concept_title : String)
    (t : ℚ) : Except HErr StartResponse × (String → Option SessionState) :=
  match find_concept graph class_grade subject concept_title with
  | none => (.error .notFound, store)
  | some concept0 =>
    let concept := if cfg.useLLM then generate_llm_concept cfg jp net concept0 else concept0
    let s0 := create_session user_id concept
    let store1 : String → Option SessionState :=
      fun k => if k = session_id then some s0 else store k
    match concept.questions with
    | [] => (.error (.internal "Concept has no questions"), store1)
    | first_q :: _ =>
      let store2 : String → Option SessionState :=
        fun k => if k = session_id then some (add_turn s0 .AI first_q.qtext t) else store1 k
      (.ok { session_id := session_id, question_type := first_q.qtype,
             question := first_q.qtext, hint_level := 0 }, store2)

/-- The completion message session_turn returns (two adjacent string
literals in the source). -/
def completionMessage : String :=
  "🎉 Congratulations! You\x27ve completed this concept. Click \x27Get Reflection\x27 to see a summary of your responses and suggested next concepts."

/-- The length-based canned feedback session_turn falls back to when the
LLM evaluation fails. -/
def lengthFeedback (user_answer : String) : String :=
  let answer := pyStrip user_answer
  if 100 < answer.length then
    "Thank you for the detailed response! Let\x27s continue exploring this topic."
  else if 50 < answer.length then
    "You\x27ve put good thought into this. Let\x27s keep building on these ideas."
  else if answer ≠ "" then
    "Thanks for trying! Every response helps us learn more."
  else
    "Don\x27t worry if you\x27re unsure. Let\x27s try the next question."

/-- Response of /session/turn (DialogueTurnResponse).  The session_id
echo and the progress payload are plumbing no claim examines and are
omitted; everything else is modelled. -/
structure TurnResponse where
  question_type : String
  question : String
  hint_level : ℕ
  is_correct : Bool
  feedback : String
  next_question : Option Question
deriving DecidableEq, Repr

/-- session_turn on a known session.  Faithful to the source:
current_idx = next_q_idx - 1 (which is -1 on a fresh session, so
questions[current_idx] is Python negative indexing); the early
"already completed" return fires only when current_idx >= len(questions);
the User turn is recorded unconditionally afterwards; the cursor only
advances (and hint_level only resets) when a next question exists; with
USE_LLM and a next question, the evaluation prompt interpolates
next_q["question"].  next_idx = current_idx + 1 is always >= 0 because
the cursor is a natural number, so plain pyIndex models questions[next_idx].
Non-bool is_correct / non-string feedback payloads would fail response
validation after the mutations; modelled as an internal error carrying
the mutated state. -/
def session_turn (cfg : Cfg) (jp : String → Option Json) (net : String → NetResult)
    (s : SessionState) (user_answer : String) (tUser tAI : ℚ) :
    Except HErr TurnResponse × SessionState :=
  let questions := s.concept.questions
  let current_idx : ℤ := (s.next_q_idx : ℤ) - 1
  if (questions.length : ℤ) ≤ current_idx then
    (.ok { question_type := "completed", question := completionMessage, hint_level := 0,
           is_correct := true, feedback := "", next_question := none }, s)
  else
    match pyIndex questions current_idx with
    | none => (.error (.internal "IndexError"), s)
    | some _current_q =>
      let s1 := add_turn s .User user_answer tUser
      let next_idx : ℤ := current_idx + 1
      match pyIndex questions next_idx with
      | some next_q =>
        let s2 := update_hint_level
          (update_next_q_idx (add_turn s1 .AI next_q.qtext tAI) (next_idx.toNat + 1)) 0
        let evalE : Except HErr (Bool × String) :=
          if cfg.useLLM then
            let response := (send_prompt cfg.llm jp net
              (evalPrompt next_q.qtext user_answer) 512).1
            match parse_llm_evaluation jp response with
            | .ok evaluation =>
              match (evaluation.getField "is_correct").getD (.bool false),
                    (evaluation.getField "feedback").getD (.str "Keep thinking about this.") with
              | .bool b, .str f => .ok (b, f)
              | _, _ => .error (.internal "response validation")
            | .error _ => .ok (true, lengthFeedback user_answer)
          else .ok (pyStrip user_answer ≠ "", "Thanks for your answer.")
        match evalE with
        | .error e => (.error e, s2)
        | .ok (is_correct, feedback) =>
          (.ok { question_type := next_q.qtype, question := next_q.qtext, hint_level := 0,
                 is_correct := is_correct, feedback := feedback,
                 next_question := some next_q }, s2)
      | none =>
        (.ok { question_type := "completed", question := completionMessage, hint_level := 0,
               is_correct := true, feedback := "", next_question := none }, s1)

/-- The rule-based hint get_hint falls back to on non-LLMError failures. -/
def ruleHint (questionText : String) : String :=
  if containsSub (pyLower questionText) "why" then
    "Think about cause and effect: what leads to this result and why?"
  else if containsSub (pyLower questionText) "how" then
    "Try breaking this down into step-by-step instructions."
  else if containsSub (pyLower questionText) "what" then
    "Start by explaining the concept in your own words."
  else
    "Try breaking the problem into smaller parts and tackle each one."

/-- get_hint on a known session.  idx = max(next_q_idx - 1, 0); 400 if it
is past the question list.  With USE_LLM: send the prompt, parse the
hint; an LLMError would propagate as a 500 service-unavailable, any
other exception falls back to ruleHint; without USE_LLM a fixed hint.
update_hint_level(hint_level + 1) runs before the response is built, so
a hint payload that is not a string fails response validation with the
increment already persisted. -/
def get_hint (cfg : Cfg) (jp : String → Option Json) (net : String → NetResult)
    (s : SessionState) : Except HErr String × SessionState :=
  let questions := s.concept.questions
  let hint_level := s.hint_level
  let idx := max ((s.next_q_idx : ℤ) - 1) 0
  if (questions.length : ℤ) ≤ idx then (.error .noActiveQuestion, s)
  else
    match pyIndex questions idx with
    | none => (.error (.internal "IndexError"), s)
    | some current_q =>
      let hintE : Except HErr Json :=
        if cfg.useLLM then
          let response := (send_prompt cfg.llm jp net
            (hintPrompt current_q.qtext hint_level s.concept.subject s.concept.grade) 512).1
          match parse_llm_hint jp response with
          | .ok hint_data => .ok ((hint_data.getField "hint").getD .null)
          | .error (.llmError m) => .error (.serviceUnavailable m)
          | .error (.llmParsingError _) => .ok (.str (ruleHint current_q.qtext))
        else .ok (.str "Try breaking the problem into smaller parts.")
      match hintE with
      | .error e => (.error e, s)
      | .ok hintJson =>
        let s1 := update_hint_level s (hint_level + 1)
        match hintJson with
        | .str hint => (.ok hint, s1)
        | _ => (.error (.internal "hint response validation"), s1)

/-- The template-based rephrase retry_question falls back to on an
LLMError (str.replace replaces every occurrence, as in Python). -/
def templateRephrase (q : String) : String :=
  if q.startsWith "What" then q.replace "What" "Could you explain what"
  else if q.startsWith "How" then q.replace "How" "In what way"
  else if q.startsWith "Why" then q.replace "Why" "What reasons explain why"
  else "Let\x27s look at this another way: " ++ q

/-- retry_question on a known session: re-emit the current question
(idx = max(next_q_idx - 1, 0)) as a fresh AI turn, hint_level reset to 0,
cursor untouched.  With USE_LLM, only LLMError is caught (the template
fallback); an LLMParsingError from parse_llm_question is unhandled and
becomes a 500 before any mutation. -/
def retry_question (cfg : Cfg) (jp : String → Option Json) (net : String → NetResult)
    (s : SessionState) (t : ℚ) : Except HErr TurnResponse × SessionState :=
  let questions := s.concept.questions
  let idx := max ((s.next_q_idx : ℤ) - 1) 0
  if (questions.length : ℤ) ≤ idx then (.error .noActiveQuestion, s)
  else
    match pyIndex questions idx with
    | none => (.error (.internal "IndexError"), s)
    | some current_q =>
      let newQE : Except HErr String :=
        if cfg.useLLM then
          let response := (send_prompt cfg.llm jp net
            (retryPrompt current_q.qtext s.concept.title s.concept.grade s.concept.subject)
            512).1
          match parse_llm_question jp response with
          | .ok question_data =>
            match question_data.getField "question" with
            | some (.str q) => .ok q
            | _ => .error (.internal "non-string question payload")
          | .error (.llmError _) => .ok (templateRephrase current_q.qtext)
          | .error (.llmParsingError m) => .error (.internal m)
        else .ok current_q.qtext
      match newQE with
      | .error e => (.error e, s)
      | .ok new_question =>
        let s1 := update_hint_level (add_turn s .AI new_question t) 0
        (.ok { question_type := "elicitation", question := new_question, hint_level := 0,
               is_correct := false, feedback := "", next_question := none }, s1)

/-- skip_question on a known session: idx = max(next_q_idx, 1); at/after
the end return the terminal response without mutating; otherwise append
questions[idx] as an AI turn (with a transition phrase only on the dead
LLMError fallback), advance the cursor to idx + 1 and reset hint_level.
As in retry, an LLMParsingError is unhandled (500 before mutation). -/
def skip_question (cfg : Cfg) (jp : String → Option Json) (net : String → NetResult)
    (s : SessionState) (t : ℚ) : Except HErr TurnResponse × SessionState :=
  let questions := s.concept.questions
  let idx := max s.next_q_idx 1
  if questions.length ≤ idx then
    (.ok { question_type := "completed",
           question := "🎯 You\x27ve completed this concept. Use \x27Get Reflection\x27 to review your progress.",
           hint_level := 0, is_correct := false, feedback := "", next_question := none }, s)
  else
    match pyIndex questions (idx : ℤ) with
    | none => (.error (.internal "IndexError"), s)
    | some idx_q =>
      let nextQE : Except HErr String :=
        if cfg.useLLM then
          let previous_q := match pyIndex questions ((idx : ℤ) - 1) with
            | some q => if q.qtext = "" then "Starting the concept" else q.qtext
            | none => "Starting the concept"
          let response := (send_prompt cfg.llm jp net
            (skipPrompt s.concept.title s.concept.grade s.concept.subject previous_q) 512).1
          match parse_llm_question jp response with
          | .ok question_data =>
            match question_data.getField "question" with
            | some (.str q) => .ok q
            | _ => .error (.internal "non-string question payload")
          | .error (.llmError _) => .ok ("Let\x27s try a different approach. " ++ idx_q.qtext)
          | .error (.llmParsingError m) => .error (.internal m)
        else .ok idx_q.qtext
      match nextQE with
      | .error e => (.error e, s)
      | .ok next_question =>
        let s1 := update_hint_level (update_next_q_idx (add_turn s .AI next_question t) (idx + 1)) 0
        (.ok { question_type := "elicitation", question := next_question, hint_level := 0,
               is_correct := false, feedback := "", next_question := none }, s1)

/-- Round half to even (banker\x27s rounding), the semantics of Python\x27s
builtin round on ties. -/
def roundHalfEven (q : ℚ) : ℤ :=
  let f := ⌊q⌋
  let r := q - f
  if r < 1/2 then f
  else if 1/2 < r then f + 1
  else if Even f then f else f + 1

/-- Python round(x, 1): round to one decimal place, half to even. -/
def round1 (x : ℚ) : ℚ :=
  (roundHalfEven (10 * x) : ℚ) / 10

/-- Loop body of the times_per_question scan in
PersistenceLayer.get_session: walking the turns in timestamp order,
a User turn with last_question_time set contributes
round(diff, 1) when diff < 3600; an AI turn whose text does not CONTAIN
"Congratulations" updates last_question_time (a substring test, not an
equality with the completion message, which in fact is never stored as
a turn at all). -/
def tpqGo : List Turn → Option ℚ → List ℚ → List ℚ
  | [], _, acc => acc.reverse
  | turn :: rest, lastQ, acc =>
    if turn.speaker = Speaker.User then
      match lastQ with
      | some lq =>
        let time_diff := turn.timestamp - lq
        if time_diff < 3600 then tpqGo rest lastQ (round1 time_diff :: acc)
        else tpqGo rest lastQ acc
      | none => tpqGo rest lastQ acc
    else
      if ¬containsSub turn.text "Congratulations" then
        tpqGo rest (some turn.timestamp) acc
      else tpqGo rest lastQ acc

/-- times_per_question as recomputed on every PersistenceLayer.get_session
read (the turns argument is the session\x27s dialogue, which the DB query
returns ordered by timestamp). -/
def times_per_question (turns : List Turn) : List ℚ :=
  tpqGo turns none []

/-- Modelled from the claim\x27s/spec\x27s own wording, for comparison with
times_per_question: set last_question_time on each AI turn whose text is
NOT THE completion message (equality, not containment) and keep the raw
difference (no rounding) when it is strictly below 3600. -/
def specTimesGo : List Turn → Option ℚ → List ℚ → List ℚ
  | [], _, acc => acc.reverse
  | turn :: rest, lastQ, acc =>
    if turn.speaker = Speaker.User then
      match lastQ with
      | some lq =>
        let time_diff := turn.timestamp - lq
        if time_diff < 3600 then specTimesGo rest lastQ (time_diff :: acc)
        else specTimesGo rest lastQ acc
      | none => specTimesGo rest lastQ acc
    else
      if turn.text ≠ completionMessage then specTimesGo rest (some turn.timestamp) acc
      else specTimesGo rest lastQ acc

/-- The spec-worded scan over a whole dialogue. -/
def spec_times_per_question (turns : List Turn) : List ℚ :=
  specTimesGo turns none []

/-- Response of /progress/(session_id). -/
structure ProgressResponse where
  questions_answered : ℕ
  total_questions : ℕ
  concepts_covered : List String
  avg_time_per_question : ℚ
  total_time : ℚ
  times_per_question : List ℚ
deriving DecidableEq, Repr

/-- get_progress on a known session: the stored Progress row fields plus
the timing metrics derived from the freshly recomputed
times_per_question list. -/
def get_progress (s : SessionState) : ProgressResponse :=
  let times := times_per_question s.dialogue
  { questions_answered := s.questions_answered
    total_questions := s.total_questions
    concepts_covered := s.concepts_covered
    avg_time_per_question := if times = [] then 0 else times.sum / (times.length : ℚ)
    total_time := times.sum
    times_per_question := times }

/-- The states a session can be in per the spec: ACTIVE while the cursor
is below the question count, COMPLETE from there on. -/
def Complete (s : SessionState) : Prop :=
  s.concept.questions.length ≤ s.next_q_idx

/-- The cursor invariant the spec states: the cursor never exceeds the
bound concept\x27s question count (it is a natural number, so 0 <= cursor
holds by type). -/
def Inv (s : SessionState) : Prop :=
  s.next_q_idx ≤ s.concept.questions.length

/-- One mutating endpoint call on a session, any configuration and any
LLM behaviour (get_progress, get_reflection and get_session_data never
write the session row, the turns or the cursor, so they are covered by
the reflexive closure in Reachable). -/
inductive Step : SessionState → SessionState → Prop
  | turn (cfg : Cfg) (jp : String → Option Json) (net : String → NetResult)
      (s : SessionState) (ua : String) (tU tA : ℚ) (s' : SessionState)
      (h : (session_turn cfg jp net s ua tU tA).2 = s') : Step s s'
  | hint (cfg : Cfg) (jp : String → Option Json) (net : String → NetResult)
      (s s' : SessionState)
      (h : (get_hint cfg jp net s).2 = s') : Step s s'
  | retry (cfg : Cfg) (jp : String → Option Json) (net : String → NetResult)
      (s : SessionState) (t : ℚ) (s' : SessionState)
      (h : (retry_question cfg jp net s t).2 = s') : Step s s'
  | skip (cfg : Cfg) (jp : String → Option Json) (net : String → NetResult)
      (s : SessionState) (t : ℚ) (s' : SessionState)
      (h : (skip_question cfg jp net s t).2 = s') : Step s s'

/-- Reachability of one session state from another by any sequence of
endpoint calls. -/
def Reachable (s s' : SessionState) : Prop :=
  Relation.ReflTransGen Step s s'

/-! Concrete inputs used by counterexamples and witnesses: the Addition
concept of the test fixtures, an empty concept, and oracle instances. -/

/-- The one-question Addition concept (grade 9, Mathematics) from the
repository test fixtures. -/
def mathAddition : Concept :=
  { grade := 9, subject := "Mathematics", title := "Addition",
    keywords := ["add", "plus", "sum"], prerequisites := [],
    questions := [{ qtext := "What is 2+2?", qtype := "elicitation", hints := [] }],
    is_llm_generated := false }

/-- A concept with zero questions. -/
def emptyConcept : Concept :=
  { grade := 9, subject := "Mathematics", title := "Empty", keywords := [],
    prerequisites := [], questions := [], is_llm_generated := false }

/-- Configuration with the generator disabled. -/
def cfgNoLLM : Cfg := { useLLM := false, llm := { apiKey := "", baseUrl := "", model := "" } }

/-- Configuration with the generator enabled but the API key missing. -/
def cfgMisconfigured : Cfg :=
  { useLLM := true,
    llm := { apiKey := "", baseUrl := "https://api.groq.com/v1", model := "mixtral-8x7b-32768" } }

/-- A json.loads oracle that decodes nothing. -/
def jpNone : String → Option Json := fun _ => none

/-- A network oracle in which every call fails at transport level. -/
def netDown : String → NetResult := fun _ => .transportFailure

/-- The empty session store. -/
def emptyStore : String → Option SessionState := fun _ => none

/-- A started Addition session exactly as start_session writes it: the
fresh record plus the first question as an AI turn (cursor still 0). -/
def s0C2 : SessionState := add_turn (create_session "u" mathAddition) .AI "What is 2+2?" 0

/-- The Addition session after one submitTurn("4"): cursor 1 = total,
one answer counted, three turns. -/
def s1C2 : SessionState := (session_turn cfgNoLLM jpNone netDown s0C2 "4" 1 2).2

/-- A concrete dialogue: a question answered after 3599.96 seconds, then
a question whose text happens to contain "Congratulations" answered
after 10 seconds. -/
def turnsC5 : List Turn :=
  [⟨.AI, "What is 2+2?", 0⟩, ⟨.User, "4", 89999/25⟩,
   ⟨.AI, "Congratulations! Now why is the sky blue?", 4000⟩, ⟨.User, "hmm", 4010⟩]

/-- A session holding that dialogue. -/
def sC5 : SessionState :=
  { user_id := "u", concept := mathAddition, dialogue := turnsC5, next_q_idx := 1,
    hint_level := 0, questions_answered := 2, total_questions := 1,
    concepts_covered := ["Addition"] }

/-- A session with an active current question (used for the hint
endpoint scenarios). -/
def sC6 : SessionState :=
  { user_id := "u", concept := mathAddition, dialogue := [⟨.AI, "What is 2+2?", 0⟩],
    next_q_idx := 0, hint_level := 0, questions_answered := 0, total_questions := 1,
    concepts_covered := ["Addition"] }

/-- A session whose current question carries two predefined hints and
whose hint_level is 0. -/
def sC7 : SessionState :=
  { user_id := "u",
    concept := { mathAddition with
      questions := [{ qtext := "Q one?", qtype := "elicitation", hints := ["h1", "h2"] }] },
    dialogue := [⟨.AI, "Q one?", 0⟩], next_q_idx := 0, hint_level := 0,
    questions_answered := 0, total_questions := 1, concepts_covered := ["Addition"] }

/-- First question of the two-question concept for the evaluator
scenario. -/
def qFirst : Question := { qtext := "First question?", qtype := "elicitation", hints := [] }

/-- Second question of the two-question concept for the evaluator
scenario. -/
def qSecond : Question := { qtext := "Second question?", qtype := "elicitation", hints := [] }

/-- A two-question session at cursor 1: the question just answered is
the first one, the upcoming one is the second. -/
def s8 : SessionState :=
  { user_id := "u",
    concept := { grade := 9, subject := "Science", title := "T", keywords := [],
                 prerequisites := [], questions := [qFirst, qSecond],
                 is_llm_generated := false },
    dialogue := [⟨.AI, "First question?", 0⟩], next_q_idx := 1, hint_level := 0,
    questions_answered := 0, total_questions := 2, concepts_covered := ["T"] }

/-- A well-formed API body for the evaluator scenario: the content field
holds the inner payload string. -/
def bodyJson : Json :=
  .obj [("choices", .arr [.obj [("message", .obj [("content", .str "EVALCONTENT")])]])]

/-- The inner evaluation payload: correct, with a recognisable feedback
string. -/
def evalJson : Json :=
  .obj [("is_correct", .bool true), ("feedback", .str "JUDGED-NEXT-QUESTION")]

/-- The json.loads oracle for the evaluator scenario. -/
def jp8 : String → Option Json := fun s =>
  if s = "EVALBODY" then some bodyJson
  else if s = "EVALCONTENT" then some evalJson else none

/-- Configuration with the generator enabled and fully configured. -/
def cfg8 : Cfg := { useLLM := true, llm := { apiKey := "k", baseUrl := "u", model := "m" } }

/-- A network oracle that answers successfully exactly when the prompt
is the evaluation prompt built from the SECOND (upcoming) question, and
fails otherwise: the successful feedback below therefore certifies which
question session_turn sent to the evaluator. -/
def net8 : String → NetResult := fun p =>
  if p = evalPrompt "Second question?" "my answer" then .httpResponse 200 "EVALBODY"
  else .transportFailure

/-! Helper lemmas about the persistence primitives. -/

/-- add_turn in one equation: append the turn and bump
questions_answered exactly when a User turn is non-blank. -/
theorem add_turn_def (s : SessionState) (sp : Speaker) (txt : String) (t : ℚ) :
    add_turn s sp txt t =
      { s with dialogue := s.dialogue ++ [⟨sp, txt, t⟩],
               questions_answered := s.questions_answered +
                 (if sp = Speaker.User ∧ pyStrip txt ≠ "" then 1 else 0) } := by
  simp only [add_turn]
  split
  · simp_all
  · simp_all

theorem add_turn_user_count (s : SessionState) (txt : String) (t : ℚ) :
    (add_turn s .User txt t).questions_answered =
      s.questions_answered + (if pyStrip txt = "" then 0 else 1) := by
  rw [add_turn_def]
  by_cases h : pyStrip txt = "" <;> simp [h]

theorem add_turn_ai_count (s : SessionState) (txt : String) (t : ℚ) :
    (add_turn s .AI txt t).questions_answered = s.questions_answered := by
  rw [add_turn_def]; simp

theorem add_turn_next_q_idx (s : SessionState) (sp : Speaker) (txt : String) (t : ℚ) :
    (add_turn s sp txt t).next_q_idx = s.next_q_idx := by
  rw [add_turn_def]

theorem add_turn_concept (s : SessionState) (sp : Speaker) (txt : String) (t : ℚ) :
    (add_turn s sp txt t).concept = s.concept := by
  rw [add_turn_def]

theorem add_turn_dialogue (s : SessionState) (sp : Speaker) (txt : String) (t : ℚ) :
    (add_turn s sp txt t).dialogue = s.dialogue ++ [⟨sp, txt, t⟩] := by
  rw [add_turn_def]

theorem add_turn_hint_level (s : SessionState) (sp : Speaker) (txt : String) (t : ℚ) :
    (add_turn s sp txt t).hint_level = s.hint_level := by
  rw [add_turn_def]

/-- A Python index known to be in range (counting from either end) hits
an element. -/
theorem pyIndex_isSome {α : Type} (l : List α) (i : ℤ)
    (h1 : -(l.length : ℤ) ≤ i) (h2 : i < (l.length : ℤ)) :
    ∃ a, pyIndex l i = some a := by
  unfold pyIndex
  split
  · rename_i hpos
    have hlt : i.toNat < l.length := by omega
    exact ⟨l[i.toNat], by simp [List.getElem?_eq_getElem hlt]⟩
  · rename_i hneg
    rw [if_pos (by omega)]
    have hlt : l.length - (-i).toNat < l.length := by omega
    exact ⟨l[l.length - (-i).toNat], by simp [List.getElem?_eq_getElem hlt]⟩

/-- A successful Python index at a nonnegative position is in range. -/
theorem pyIndex_some_lt {α : Type} (l : List α) (i : ℤ) (a : α)
    (h0 : 0 ≤ i) (h : pyIndex l i = some a) : i.toNat < l.length := by
  unfold pyIndex at h
  rw [if_pos h0] at h
  exact (List.getElem?_eq_some.mp h).1

/-- Every failure of parse_llm_response is an LLMParsingError, never an
LLMError: the whole body re-raises as LLMParsingError. -/
theorem parse_llm_response_no_llmError (jp : String → Option Json) (r m : String) :
    parse_llm_response jp r ≠ .error (.llmError m) := by
  unfold parse_llm_response
  split
  · simp
  · split
    · simp
    · dsimp only
      split
      · split <;> simp
      · simp

/-- parse_llm_hint inherits it: it can only add a further
LLMParsingError. -/
theorem parse_llm_hint_no_llmError (jp : String → Option Json) (r m : String) :
    parse_llm_hint jp r ≠ .error (.llmError m) := by
  unfold parse_llm_hint
  split
  · rename_i e h
    intro hc
    exact parse_llm_response_no_llmError jp r m (by rw [h]; injection hc with h2; rw [h2])
  · split <;> simp

/-- The four possible resulting states of session_turn, with the branch
guards: untouched on the unreachable early-completed branch, untouched
on IndexError, just the User turn appended when there is no next
question, or User turn + next AI question + cursor/hint updates. -/
theorem session_turn_snd_cases (cfg : Cfg) (jp : String → Option Json)
    (net : String → NetResult) (s : SessionState) (ua : String) (tU tA : ℚ) :
    ((s.concept.questions.length : ℤ) ≤ (s.next_q_idx : ℤ) - 1 ∧
       (session_turn cfg jp net s ua tU tA).2 = s) ∨
    (pyIndex s.concept.questions ((s.next_q_idx : ℤ) - 1) = none ∧
       (session_turn cfg jp net s ua tU tA).2 = s) ∨
    (pyIndex s.concept.questions ((s.next_q_idx : ℤ) - 1 + 1) = none ∧
       (session_turn cfg jp net s ua tU tA).2 = add_turn s .User ua tU) ∨
    (∃ nq, pyIndex s.concept.questions ((s.next_q_idx : ℤ) - 1 + 1) = some nq ∧
       (session_turn cfg jp net s ua tU tA).2 =
         update_hint_level (update_next_q_idx
           (add_turn (add_turn s .User ua tU) .AI nq.qtext tA)
           (((s.next_q_idx : ℤ) - 1 + 1).toNat + 1)) 0) := by
  simp only [session_turn]
  split
  · rename_i h
    exact Or.inl ⟨h, rfl⟩
  · split
    · rename_i hnone
      exact Or.inr (Or.inl ⟨hnone, rfl⟩)
    · rename_i q hsome
      split
      · rename_i nq hnq
        refine Or.inr (Or.inr (Or.inr ⟨nq, hnq, ?_⟩))
        split <;> rfl
      · rename_i hnon
        exact Or.inr (Or.inr (Or.inl ⟨hnon, rfl⟩))

/-- get_hint either leaves the session untouched or only bumps
hint_level by one. -/
theorem get_hint_snd_cases (cfg : Cfg) (jp : String → Option Json)
    (net : String → NetResult) (s : SessionState) :
    (get_hint cfg jp net s).2 = s ∨
    (get_hint cfg jp net s).2 = update_hint_level s (s.hint_level + 1) := by
  simp only [get_hint]
  split
  · exact Or.inl rfl
  · split
    · exact Or.inl rfl
    · split
      · exact Or.inl rfl
      · split <;> exact Or.inr rfl

/-- retry_question either leaves the session untouched or appends one AI
turn and resets hint_level (never moving the cursor). -/
theorem retry_question_snd_cases (cfg : Cfg) (jp : String → Option Json)
    (net : String → NetResult) (s : SessionState) (t : ℚ) :
    (retry_question cfg jp net s t).2 = s ∨
    ∃ q, (retry_question cfg jp net s t).2 = update_hint_level (add_turn s .AI q t) 0 := by
  simp only [retry_question]
  split
  · exact Or.inl rfl
  · split
    · exact Or.inl rfl
    · split
      · exact Or.inl rfl
      · exact Or.inr ⟨_, rfl⟩

/-- skip_question either leaves the session untouched or — only when
max(cursor, 1) is still inside the question list — appends one AI turn
and advances the cursor to max(cursor, 1) + 1. -/
theorem skip_question_snd_cases (cfg : Cfg) (jp : String → Option Json)
    (net : String → NetResult) (s : SessionState) (t : ℚ) :
    (skip_question cfg jp net s t).2 = s ∨
    (max s.next_q_idx 1 < s.concept.questions.length ∧
      ∃ q, (skip_question cfg jp net s t).2 =
        update_hint_level (update_next_q_idx (add_turn s .AI q t) (max s.next_q_idx 1 + 1)) 0) := by
  simp only [skip_question]
  split
  · exact Or.inl rfl
  · rename_i hlt
    split
    · exact Or.inl rfl
    · split
      · exact Or.inl rfl
      · exact Or.inr ⟨by omega, _, rfl⟩

theorem session_turn_inv (cfg : Cfg) (jp : String → Option Json) (net : String → NetResult)
    (s : SessionState) (ua : String) (tU tA : ℚ) (h : Inv s) :
    Inv (session_turn cfg jp net s ua tU tA).2 := by
  rcases session_turn_snd_cases cfg jp net s ua tU tA with
    ⟨_, h2⟩ | ⟨_, h2⟩ | ⟨_, h2⟩ | ⟨nq, hnq, h2⟩
  · rw [h2]; exact h
  · rw [h2]; exact h
  · unfold Inv at *
    rw [h2, add_turn_next_q_idx, add_turn_concept]; exact h
  · have hlt := pyIndex_some_lt _ _ _ (by omega : (0:ℤ) ≤ (s.next_q_idx : ℤ) - 1 + 1) hnq
    unfold Inv
    rw [h2]
    simp only [update_hint_level, update_next_q_idx, add_turn_concept]
    omega

theorem get_hint_inv (cfg : Cfg) (jp : String → Option Json) (net : String → NetResult)
    (s : SessionState) (h : Inv s) : Inv (get_hint cfg jp net s).2 := by
  rcases get_hint_snd_cases cfg jp net s with h2 | h2 <;> rw [h2] <;> exact h

theorem retry_question_inv (cfg : Cfg) (jp : String → Option Json) (net : String → NetResult)
    (s : SessionState) (t : ℚ) (h : Inv s) : Inv (retry_question cfg jp net s t).2 := by
  rcases retry_question_snd_cases cfg jp net s t with h2 | ⟨q, h2⟩
  · rw [h2]; exact h
  · unfold Inv at *
    rw [h2]
    simp only [update_hint_level, add_turn_next_q_idx, add_turn_concept]
    exact h

theorem skip_question_inv (cfg : Cfg) (jp : String → Option Json) (net : String → NetResult)
    (s : SessionState) (t : ℚ) (h : Inv s) : Inv (skip_question cfg jp net s t).2 := by
  rcases skip_question_snd_cases cfg jp net s t with h2 | ⟨hlt, q, h2⟩
  · rw [h2]; exact h
  · unfold Inv
    rw [h2]
    simp only [update_hint_level, update_next_q_idx, add_turn_concept]
    exact hlt

/-- start_session writes to the session id either nothing (concept not
found), the bare fresh record (empty concept), or the fresh record with
the first question appended as an AI turn. -/
theorem start_session_store_cases (cfg : Cfg) (jp : String → Option Json)
    (net : String → NetResult) (graph : List Concept)
    (store : String → Option SessionState) (sid uid : String) (g : ℤ)
    (sub ti : String) (t : ℚ) :
    (start_session cfg jp net graph store sid uid g sub ti t).2 sid = store sid ∨
    (∃ c : Concept,
      (start_session cfg jp net graph store sid uid g sub ti t).2 sid =
        some (create_session uid c)) ∨
    (∃ (c : Concept) (q : Question) (qs : List Question), c.questions = q :: qs ∧
      (start_session cfg jp net graph store sid uid g sub ti t).2 sid =
        some (add_turn (create_session uid c) .AI q.qtext t)) := by
  simp only [start_session]
  split
  · left; rfl
  · rename_i c0 hfound
    split
    · right; left
      exact ⟨if cfg.useLLM = true then generate_llm_concept cfg jp net c0 else c0, by simp⟩
    · rename_i q qs hq
      right; right
      exact ⟨if cfg.useLLM = true then generate_llm_concept cfg jp net c0 else c0, q, qs, hq,
        by simp⟩

/-- C3: for every session and every sequence of operations, the cursor
invariant 0 <= next_question_index <= len(bound concept questions) holds
after each operation: any session start_session writes satisfies it (the
lower bound holds by type, the cursor being a natural number), and every
endpoint call (submitTurn, hint, retry, skip — progress and reflection
never write session state and are covered by reflexivity) preserves it. -/
theorem cursor_invariant :
    (∀ (cfg : Cfg) (jp : String → Option Json) (net : String → NetResult)
        (graph : List Concept) (store : String → Option SessionState)
        (sid uid : String) (g : ℤ) (sub ti : String) (t : ℚ) (s : SessionState),
        store sid = none →
        (start_session cfg jp net graph store sid uid g sub ti t).2 sid = some s →
        Inv s) ∧
    (∀ s s' : SessionState, Inv s → Reachable s s' → Inv s') := by
  constructor
  · intro cfg jp net graph store sid uid g sub ti t s hfresh hlook
    rcases start_session_store_cases cfg jp net graph store sid uid g sub ti t with
      hc | ⟨c, hc⟩ | ⟨c, q, qs, _, hc⟩
    · rw [hc, hfresh] at hlook
      cases hlook
    · rw [hc] at hlook
      injection hlook with hs
      rw [← hs]
      exact Nat.zero_le _
    · rw [hc] at hlook
      injection hlook with hs
      rw [← hs]
      unfold Inv
      rw [add_turn_next_q_idx, add_turn_concept]
      exact Nat.zero_le _
  · intro s s' hs hr
    induction hr with
    | refl => exact hs
    | tail _ hstep ih =>
      cases hstep with
      | turn cfg jp net sb ua tU tA sc h => rw [← h]; exact session_turn_inv _ _ _ _ _ _ _ ih
      | hint cfg jp net sb sc h => rw [← h]; exact get_hint_inv _ _ _ _ ih
      | retry cfg jp net sb t sc h => rw [← h]; exact retry_question_inv _ _ _ _ _ ih
      | skip cfg jp net sb t sc h => rw [← h]; exact skip_question_inv _ _ _ _ _ ih

/-- Witness for C3: the invariant on the concrete freshly started
Addition session, via the start_session half of the theorem. -/
theorem cursor_invariant_witness : Inv s0C2 :=
  cursor_invariant.1 cfgNoLLM jpNone netDown [mathAddition] emptyStore
    "sid" "u" 9 "Mathematics" "Addition" 0 s0C2 rfl (by decide)

/-- C4: questions_answered increments exactly when the submitted answer
is non-blank after trimming (the User turn is appended to the dialogue
ledger even when blank), and skip never increments it nor appends any
User turn.  The hypotheses pin the reachable situation: the cursor
invariant plus a bound concept with at least one question. -/
theorem questions_answered_iff :
    (∀ (cfg : Cfg) (jp : String → Option Json) (net : String → NetResult)
        (s : SessionState) (ua : String) (tU tA : ℚ),
        Inv s → s.concept.questions ≠ [] →
        ((session_turn cfg jp net s ua tU tA).2.questions_answered =
            s.questions_answered + (if pyStrip ua = "" then 0 else 1)) ∧
        ∃ rest, (session_turn cfg jp net s ua tU tA).2.dialogue =
            s.dialogue ++ ⟨Speaker.User, ua, tU⟩ :: rest) ∧
    (∀ (cfg : Cfg) (jp : String → Option Json) (net : String → NetResult)
        (s : SessionState) (t : ℚ),
        (skip_question cfg jp net s t).2.questions_answered = s.questions_answered ∧
        ∀ turn ∈ (skip_question cfg jp net s t).2.dialogue.drop s.dialogue.length,
          turn.speaker = Speaker.AI) := by
  constructor
  · intro cfg jp net s ua tU tA hinv hne
    have hlen : 0 < s.concept.questions.length := List.length_pos.mpr hne
    unfold Inv at hinv
    rcases session_turn_snd_cases cfg jp net s ua tU tA with
      ⟨hg, _⟩ | ⟨hg, _⟩ | ⟨hg, h2⟩ | ⟨nq, hnq, h2⟩
    · omega
    · obtain ⟨a, ha⟩ := pyIndex_isSome s.concept.questions ((s.next_q_idx : ℤ) - 1)
        (by omega) (by omega)
      rw [ha] at hg; exact absurd hg (by simp)
    · rw [h2]
      refine ⟨add_turn_user_count s ua tU, [], ?_⟩
      rw [add_turn_dialogue]
    · rw [h2]
      constructor
      · simp only [update_hint_level, update_next_q_idx]
        rw [add_turn_ai_count, add_turn_user_count]
      · refine ⟨[⟨Speaker.AI, nq.qtext, tA⟩], ?_⟩
        simp only [update_hint_level, update_next_q_idx]
        rw [add_turn_dialogue, add_turn_dialogue]
        simp
  · intro cfg jp net s t
    rcases skip_question_snd_cases cfg jp net s t with h2 | ⟨_, q, h2⟩
    · rw [h2]
      exact ⟨rfl, by simp [List.drop_length]⟩
    · rw [h2]
      constructor
      · simp only [update_hint_level, update_next_q_idx]
        rw [add_turn_ai_count]
      · simp only [update_hint_level, update_next_q_idx]
        rw [add_turn_dialogue]
        intro turn hturn
        rw [List.drop_left] at hturn
        simp at hturn
        rw [hturn]

/-- Witness for C4 at a concrete input: submitting "4" on the freshly
started Addition session counts one answer and appends the User turn. -/
theorem questions_answered_iff_witness :
    ((session_turn cfgNoLLM jpNone netDown s0C2 "4" 1 2).2.questions_answered =
        s0C2.questions_answered + (if pyStrip "4" = "" then 0 else 1)) ∧
    ∃ rest, (session_turn cfgNoLLM jpNone netDown s0C2 "4" 1 2).2.dialogue =
        s0C2.dialogue ++ ⟨Speaker.User, "4", 1⟩ :: rest :=
  questions_answered_iff.1 cfgNoLLM jpNone netDown s0C2 "4" 1 2
    (by unfold Inv; decide) (by decide)

theorem roundHalfEven_le_floor_add_one (q : ℚ) : roundHalfEven q ≤ ⌊q⌋ + 1 := by
  simp only [roundHalfEven]
  split
  · omega
  · split
    · omega
    · split <;> omega

theorem round1_le_of_lt (x : ℚ) (h : x < 3600) : round1 x ≤ 3600 := by
  unfold round1
  have h1 : (10 : ℚ) * x < 36000 := by linarith
  have h2 : ⌊(10 : ℚ) * x⌋ < 36000 := Int.floor_lt.mpr (by exact_mod_cast h1)
  have h3 : roundHalfEven (10 * x) ≤ 36000 :=
    le_trans (roundHalfEven_le_floor_add_one _) (by omega)
  have h4 : ((roundHalfEven (10 * x) : ℤ) : ℚ) ≤ 36000 := by exact_mod_cast h3
  linarith

theorem tpqGo_bound : ∀ (turns : List Turn) (lastQ : Option ℚ) (acc : List ℚ),
    (∀ x ∈ acc, x ≤ 3600) → ∀ x ∈ tpqGo turns lastQ acc, x ≤ 3600 := by
  intro turns
  induction turns with
  | nil =>
    intro lastQ acc hacc x hx
    simp only [tpqGo] at hx
    rw [List.mem_reverse] at hx
    exact hacc x hx
  | cons turn rest ih =>
    intro lastQ acc hacc x hx
    cases lastQ with
    | none =>
      simp only [tpqGo] at hx
      split at hx
      · exact ih _ _ hacc x hx
      · split at hx <;> exact ih _ _ hacc x hx
    | some lq =>
      simp only [tpqGo] at hx
      split at hx
      · split at hx
        · rename_i hdiff
          refine ih _ _ ?_ x hx
          intro y hy
          rcases List.mem_cons.mp hy with h | h
          · rw [h]; exact round1_le_of_lt _ hdiff
          · exact hacc y h
        · exact ih _ _ hacc x hx
      · split at hx <;> exact ih _ _ hacc x hx

/-- C5 amended: get_progress returns exactly the recomputed scan, whose
condition is a "Congratulations" substring test on AI turns and whose
kept samples are round(diff, 1) for diff < 3600 seconds — so every
element is at most 3600 (3600.0 itself is attainable by rounding, e.g.
from a 3599.96-second latency), and avg_time_per_question is the
arithmetic mean of the kept samples (0 when there are none). -/
theorem times_per_question_amended (s : SessionState) :
    ((get_progress s).times_per_question = times_per_question s.dialogue) ∧
    (∀ x ∈ (get_progress s).times_per_question, x ≤ 3600) ∧
    ((get_progress s).avg_time_per_question =
      if times_per_question s.dialogue = [] then 0
      else (times_per_question s.dialogue).sum / ((times_per_question s.dialogue).length : ℚ)) ∧
    ((get_progress s).total_time = (times_per_question s.dialogue).sum) := by
  refine ⟨rfl, ?_, rfl, rfl⟩
  intro x hx
  exact tpqGo_bound s.dialogue none [] (by simp) x hx

/-- The computed value of the code\x27s scan on the concrete dialogue:
the 3599.96-second latency is kept and rounds up to exactly 3600.0. -/
theorem times_turnsC5_eval : times_per_question turnsC5 = [(3600 : ℚ)] := by
  have hsp : Speaker.AI ≠ Speaker.User := by decide
  have hc1 : containsSub "What is 2+2?" "Congratulations" = false := by decide
  have hc2 : containsSub "Congratulations! Now why is the sky blue?" "Congratulations" = true := by
    decide
  have hf : ⌊(10 : ℚ) * ((89999 : ℚ)/25)⌋ = 35999 := by
    rw [show (10 : ℚ) * ((89999 : ℚ)/25) = 179998/5 by norm_num]
    rw [Int.floor_eq_iff]
    norm_num
  have hr : round1 ((89999 : ℚ)/25) = 3600 := by
    simp only [round1, roundHalfEven, hf]
    norm_num
  norm_num [times_per_question, turnsC5, tpqGo, hsp, hc1, hc2, hr]

/-- The spec-worded scan on the same dialogue keeps the raw latencies of
both questions (the "Congratulations"-containing question text is not
the completion message, so its answer latency counts). -/
theorem spec_times_turnsC5_eval : spec_times_per_question turnsC5 = [89999/25, 10] := by
  have hsp : Speaker.AI ≠ Speaker.User := by decide
  have hs1 : "What is 2+2?" ≠ completionMessage := by decide
  have hs2 : "Congratulations! Now why is the sky blue?" ≠ completionMessage := by decide
  norm_num [spec_times_per_question, turnsC5, specTimesGo, hsp, hs1, hs2]

/-- Witness for the amended C5 theorem on the concrete session sC5,
discharging the membership hypothesis there. -/
theorem times_per_question_amended_witness : (3600 : ℚ) ≤ 3600 :=
  (times_per_question_amended sC5).2.1 3600
    (show (3600 : ℚ) ∈ times_per_question turnsC5 by rw [times_turnsC5_eval]; simp)

/-- Counterexample for C5 as stated: on the concrete session sC5 the
value get_progress returns differs from the scan the claim describes
(the AI turn containing "Congratulations" without being the completion
message is skipped by the code, and the kept sample is rounded), and the
rounded sample 3600.0 violates the claimed strict sub-3600 bound. -/
theorem times_per_question_spec_counterexample :
    (get_progress sC5).times_per_question ≠ spec_times_per_question sC5.dialogue ∧
    (3600 : ℚ) ∈ (get_progress sC5).times_per_question := by
  constructor
  · show times_per_question turnsC5 ≠ spec_times_per_question turnsC5
    rw [times_turnsC5_eval, spec_times_turnsC5_eval]
    intro h
    exact absurd (congrArg List.length h) (by decide)
  · show (3600 : ℚ) ∈ times_per_question turnsC5
    rw [times_turnsC5_eval]
    simp

/-- C1 (divergence): after every successful start_session, the created
session is ACTIVE with the concept\x27s first question appended as an AI
turn and hint_level 0, but its cursor (next_q_idx) is 0, not 1: neither
create_session nor anything else in start_session ever writes the
cursor, which keeps the db.Session column default 0. -/
theorem start_session_cursor_bug :
    ∀ (cfg : Cfg) (jp : String → Option Json) (net : String → NetResult)
      (graph : List Concept) (store : String → Option SessionState)
      (sid uid : String) (g : ℤ) (sub ti : String) (t : ℚ) (r : StartResponse),
      (start_session cfg jp net graph store sid uid g sub ti t).1 = .ok r →
      ∃ s, (start_session cfg jp net graph store sid uid g sub ti t).2 sid = some s ∧
        s.next_q_idx = 0 ∧ s.hint_level = 0 ∧ s.questions_answered = 0 ∧
        ∃ q qs, s.concept.questions = q :: qs ∧
          s.dialogue = [⟨Speaker.AI, q.qtext, t⟩] := by
  intro cfg jp net graph store sid uid g sub ti t r h
  rcases hfc : find_concept graph g sub ti with _ | c0
  · simp [start_session, hfc] at h
  · rcases hq : (if cfg.useLLM = true then generate_llm_concept cfg jp net c0 else c0).questions
      with _ | ⟨q, qs⟩
    · simp [start_session, hfc, hq] at h
    · refine ⟨add_turn (create_session uid
          (if cfg.useLLM = true then generate_llm_concept cfg jp net c0 else c0)) .AI q.qtext t,
        ?_, ?_, ?_, ?_, q, qs, ?_, ?_⟩
      · simp [start_session, hfc, hq]
      · rw [add_turn_next_q_idx]; rfl
      · rw [add_turn_hint_level]; rfl
      · rw [add_turn_ai_count]; rfl
      · rw [add_turn_concept]; exact hq
      · rw [add_turn_dialogue]; rfl

/-- Witness for C1 at the concrete Addition start. -/
theorem start_session_cursor_bug_witness :
    ∃ s, (start_session cfgNoLLM jpNone netDown [mathAddition] emptyStore
        "sid" "u" 9 "Mathematics" "Addition" 0).2 "sid" = some s ∧
      s.next_q_idx = 0 ∧ s.hint_level = 0 ∧ s.questions_answered = 0 ∧
      ∃ q qs, s.concept.questions = q :: qs ∧
        s.dialogue = [⟨Speaker.AI, q.qtext, 0⟩] :=
  start_session_cursor_bug cfgNoLLM jpNone netDown [mathAddition] emptyStore
    "sid" "u" 9 "Mathematics" "Addition" 0
    { session_id := "sid", question_type := "elicitation",
      question := "What is 2+2?", hint_level := 0 } (by decide)

/-- C2 (divergence): the concrete Addition session after start and one
submitTurn is COMPLETE (cursor = total = 1), yet a further
submitTurn("4") returns the terminal completed response WHILE appending
another User turn and incrementing questions_answered from 1 to 2: the
no-mutation guard in session_turn fires only at cursor >= total + 1,
which no reachable session attains. -/
theorem completed_submit_turn_mutates_bug :
    Complete s1C2 ∧
    s1C2.next_q_idx = 1 ∧ s1C2.total_questions = 1 ∧ s1C2.questions_answered = 1 ∧
    (session_turn cfgNoLLM jpNone netDown s1C2 "4" 3 4).1 =
      .ok { question_type := "completed", question := completionMessage, hint_level := 0,
            is_correct := true, feedback := "", next_question := none } ∧
    (session_turn cfgNoLLM jpNone netDown s1C2 "4" 3 4).2.questions_answered = 2 ∧
    (session_turn cfgNoLLM jpNone netDown s1C2 "4" 3 4).2.dialogue.length =
      s1C2.dialogue.length + 1 := by
  refine ⟨?_, by decide, by decide, by decide, by decide, by decide, by decide⟩
  show s1C2.concept.questions.length ≤ s1C2.next_q_idx
  decide

/-- C6 (divergence): with the generator enabled but the API key missing,
get_hint on a session with an active question returns a locally
generated fallback hint (and increments hint_level), not a
service-unavailable error: send_prompt swallows the configuration
LLMError and returns "", and parse_llm_hint then raises
LLMParsingError, which get_hint\x27s except-Exception arm turns into the
rule-based hint. -/
theorem get_hint_misconfigured_fallback_bug :
    cfgMisconfigured.useLLM = true ∧ cfgMisconfigured.llm.apiKey = "" ∧
    (get_hint cfgMisconfigured jpNone netDown sC6).1 =
      .ok "Start by explaining the concept in your own words." ∧
    (get_hint cfgMisconfigured jpNone netDown sC6).2 = update_hint_level sC6 1 := by
  refine ⟨rfl, rfl, by decide, by decide⟩

/-- C7 counterexample: on a session whose current question has the two
predefined hints ["h1", "h2"] and whose hint_level is 0, the first hint
fetch (generator disabled) returns the fixed local hint, not
predefined_hints[0]: the hint endpoint never consults predefined hints
(that logic lives only in the unused generate_dynamic_hint helper). -/
theorem hint_predefined_counterexample :
    sC7.hint_level = 0 ∧
    pyIndex sC7.concept.questions (max ((sC7.next_q_idx : ℤ) - 1) 0) =
      some { qtext := "Q one?", qtype := "elicitation", hints := ["h1", "h2"] } ∧
    (get_hint cfgNoLLM jpNone netDown sC7).1 =
      .ok "Try breaking the problem into smaller parts." ∧
    (get_hint cfgNoLLM jpNone netDown sC7).1 ≠ .ok "h1" := by
  refine ⟨rfl, by decide, by decide, by decide⟩

/-- C7 amended: the hint endpoint ignores predefined hints entirely —
with the generator disabled every fetch on an active question returns
the fixed hint "Try breaking the problem into smaller parts." — while
hint_level increments by exactly one on every successful fetch, with no
upper bound and no reset on a bare hint fetch. -/
theorem hint_endpoint_amended :
    ∀ (cfg : Cfg) (jp : String → Option Json) (net : String → NetResult) (s : SessionState),
      (∀ (h : String) (s' : SessionState), get_hint cfg jp net s = (.ok h, s') →
        s' = update_hint_level s (s.hint_level + 1)) ∧
      (cfg.useLLM = false →
        max ((s.next_q_idx : ℤ) - 1) 0 < (s.concept.questions.length : ℤ) →
        get_hint cfg jp net s =
          (.ok "Try breaking the problem into smaller parts.",
           update_hint_level s (s.hint_level + 1))) := by
  intro cfg jp net s
  constructor
  · intro h s' hok
    simp only [get_hint] at hok
    split at hok
    · simp at hok
    · split at hok
      · simp at hok
      · split at hok
        · simp at hok
        · split at hok
          · simp at hok
            exact hok.2.symm
          · simp at hok
  · intro hllm hidx
    simp only [get_hint, hllm]
    rw [if_neg (by omega)]
    obtain ⟨a, ha⟩ := pyIndex_isSome s.concept.questions (max ((s.next_q_idx : ℤ) - 1) 0)
      (by omega) hidx
    rw [ha]
    simp

/-- Witness for the amended C7 theorem on the concrete session sC7. -/
theorem hint_endpoint_amended_witness :
    get_hint cfgNoLLM jpNone netDown sC7 =
      (.ok "Try breaking the problem into smaller parts.",
       update_hint_level sC7 (sC7.hint_level + 1)) :=
  (hint_endpoint_amended cfgNoLLM jpNone netDown sC7).2 rfl (by decide)

set_option maxRecDepth 10000 in
/-- C8 (divergence): on the two-question session s8 at cursor 1 (the
question just answered is "First question?"), the evaluator call is
built from the NEXT question: the oracle net8 answers successfully only
to the evaluation prompt mentioning "Second question?", and the
response indeed carries that oracle\x27s feedback.  When the evaluator
fails (every call a transport failure), the response degrades to the
length-based canned feedback with is_correct true; without an evaluator,
is_correct is exactly "answer non-blank after trimming". -/
theorem evaluator_judges_next_question_bug :
    net8 (evalPrompt "Second question?" "my answer") = .httpResponse 200 "EVALBODY" ∧
    (session_turn cfg8 jp8 net8 s8 "my answer" 10 11).1 =
      .ok { question_type := "elicitation", question := "Second question?", hint_level := 0,
            is_correct := true, feedback := "JUDGED-NEXT-QUESTION",
            next_question := some qSecond } ∧
    (session_turn cfg8 jp8 netDown s8 "my answer" 10 11).1 =
      .ok { question_type := "elicitation", question := "Second question?", hint_level := 0,
            is_correct := true,
            feedback := "Thanks for trying! Every response helps us learn more.",
            next_question := some qSecond } ∧
    (session_turn cfgNoLLM jpNone netDown s8 "" 10 11).1 =
      .ok { question_type := "elicitation", question := "Second question?", hint_level := 0,
            is_correct := false, feedback := "Thanks for your answer.",
            next_question := some qSecond } ∧
    (session_turn cfgNoLLM jpNone netDown s8 "x" 10 11).1 =
      .ok { question_type := "elicitation", question := "Second question?", hint_level := 0,
            is_correct := true, feedback := "Thanks for your answer.",
            next_question := some qSecond } := by
  refine ⟨by decide, by decide, by decide, by decide, by decide⟩

/-- C9 (divergence): start_session on a concept that exists but has zero
questions raises the EmptyConcept error AFTER create_session committed:
the store already holds the fresh session record (with its progress
fields, and no turn).  The NotFound half is clean: nothing is written. -/
theorem empty_concept_partial_write_bug :
    (start_session cfgNoLLM jpNone netDown [emptyConcept] emptyStore
        "sid" "u" 9 "Mathematics" "Empty" 0).1 =
      .error (.internal "Concept has no questions") ∧
    (start_session cfgNoLLM jpNone netDown [emptyConcept] emptyStore
        "sid" "u" 9 "Mathematics" "Empty" 0).2 "sid" =
      some (create_session "u" emptyConcept) ∧
    (create_session "u" emptyConcept).dialogue = [] ∧
    (start_session cfgNoLLM jpNone netDown [emptyConcept] emptyStore
        "sid" "u" 9 "Mathematics" "Missing" 0).1 = .error .notFound ∧
    (start_session cfgNoLLM jpNone netDown [emptyConcept] emptyStore
        "sid" "u" 9 "Mathematics" "Missing" 0).2 "sid" = none := by
  refine ⟨by decide, by decide, rfl, by decide, rfl⟩

/-- C10: send_prompt never raises — a missing API key returns "" without
attempting a network call, and transport failures, HTTP error statuses
and unparseable bodies all return "" — and since parse_llm_hint can only
raise LLMParsingError, the except-LLMError branch of the hint endpoint
(the only route to its service-unavailable response) is unreachable. -/
theorem send_prompt_total_fallback :
    (∀ (cfg : LLMConfig) (jp : String → Option Json) (net : String → NetResult)
        (prompt : String) (mt : ℕ), cfg.apiKey = "" →
        send_prompt cfg jp net prompt mt = ("", false)) ∧
    (∀ (cfg : LLMConfig) (jp : String → Option Json) (net : String → NetResult)
        (prompt : String) (mt : ℕ), cfg.apiKey ≠ "" → cfg.baseUrl ≠ "" →
        net prompt = .transportFailure →
        send_prompt cfg jp net prompt mt = ("", true)) ∧
    (∀ (cfg : LLMConfig) (jp : String → Option Json) (net : String → NetResult)
        (prompt : String) (mt st : ℕ) (body : String), cfg.apiKey ≠ "" → cfg.baseUrl ≠ "" →
        net prompt = .httpResponse st body → 400 ≤ st →
        send_prompt cfg jp net prompt mt = ("", true)) ∧
    (∀ (cfg : LLMConfig) (jp : String → Option Json) (net : String → NetResult)
        (prompt : String) (mt st : ℕ) (body : String), cfg.apiKey ≠ "" → cfg.baseUrl ≠ "" →
        net prompt = .httpResponse st body → st < 400 → jp body = none →
        send_prompt cfg jp net prompt mt = ("", true)) ∧
    (∀ (jp : String → Option Json) (r m : String),
        parse_llm_hint jp r ≠ .error (.llmError m)) ∧
    (∀ (cfg : Cfg) (jp : String → Option Json) (net : String → NetResult)
        (s : SessionState) (d : String),
        (get_hint cfg jp net s).1 ≠ .error (.serviceUnavailable d)) := by
  refine ⟨?_, ?_, ?_, ?_, parse_llm_hint_no_llmError, ?_⟩
  · intro cfg jp net prompt mt h
    simp [send_prompt, h]
  · intro cfg jp net prompt mt h1 h2 h3
    simp [send_prompt, h1, h2, h3]
  · intro cfg jp net prompt mt st body h1 h2 h3 h4
    simp [send_prompt, h1, h2, h3, h4]
  · intro cfg jp net prompt mt st body h1 h2 h3 h4 h5
    have h4x : ¬(400 ≤ st) := by omega
    simp [send_prompt, parseApiResponse, h1, h2, h3, h4x, h5]
  · intro cfg jp net s d
    simp only [get_hint]
    split
    · simp
    · split
      · simp
      · split
        · rename_i e heq
          split at heq
          · split at heq
            · simp at heq
            · rename_i m hparse
              exact absurd hparse (parse_llm_hint_no_llmError jp _ m)
            · simp at heq
          · simp at heq
        · split <;> simp

/-- Witness for C10 at concrete inputs, discharging each hypothesis. -/
theorem send_prompt_total_fallback_witness :
    send_prompt { apiKey := "", baseUrl := "u", model := "m" } jpNone netDown "p" 512 =
      ("", false) ∧
    send_prompt { apiKey := "k", baseUrl := "u", model := "m" } jpNone netDown "p" 512 =
      ("", true) ∧
    send_prompt { apiKey := "k", baseUrl := "u", model := "m" } jpNone
      (fun _ => .httpResponse 500 "b") "p" 512 = ("", true) ∧
    send_prompt { apiKey := "k", baseUrl := "u", model := "m" } jpNone
      (fun _ => .httpResponse 200 "b") "p" 512 = ("", true) ∧
    parse_llm_hint jpNone "x" ≠ .error (.llmError "m") ∧
    (get_hint cfgMisconfigured jpNone netDown sC6).1 ≠ .error (.serviceUnavailable "d") :=
  ⟨send_prompt_total_fallback.1 _ jpNone netDown "p" 512 rfl,
   send_prompt_total_fallback.2.1 _ jpNone netDown "p" 512 (by decide) (by decide) rfl,
   send_prompt_total_fallback.2.2.1 _ jpNone _ "p" 512 500 "b" (by decide) (by decide) rfl
     (by decide),
   send_prompt_total_fallback.2.2.2.1 _ jpNone _ "p" 512 200 "b" (by decide) (by decide) rfl
     (by decide) rfl,
   send_prompt_total_fallback.2.2.2.2.1 jpNone "x" "m",
   send_prompt_total_fallback.2.2.2.2.2 cfgMisconfigured jpNone netDown sC6 "d"⟩

end SocraticBSE
